import Mathlib

/-!
# easynetq-hosepipe: `pkg/rabbitmq/client.go`

A shallow embedding of the RabbitMQ adapter: the exchange declarator, the
publisher and the subscriber with its relay goroutine.

The AMQP channel (`*amqp.Channel`) is modelled by the requests sent on it so far
together with the behaviour of the broker, which answers every request as a
function of the requests that preceded it. The delivery stream returned by
`Consume` is the finite list of deliveries the broker sends before it closes the
stream. The reader of the stream returned by `Subscribe` is modelled by the
number of receives it performs: the stream is unbuffered (`make(chan ...)` without
a capacity), so a send completes only when the reader receives.
-/

namespace rabbitmq

/-! ## Data of the AMQP client library -/

/-- Bytes of a message body. -/
abbrev Bytes := List Nat

/-- An `amqp.Table` argument; `none` is the `nil` table. -/
abbrev Table := Option (List (String × String))

/-- The `context.Context` argument; the adapter never inspects it. -/
structure Context where
  done : Bool
deriving DecidableEq, Repr

/-- An error reported by the broker client (`*amqp.Error`). -/
structure AmqpError where
  code : Nat
  reason : String
deriving DecidableEq, Repr

/-- Go `error` values that the adapter can return: an error of the broker client
as it is, or `fmt.Errorf(pre ++ "%w", inner)`. -/
inductive GoError where
  | amqp (e : AmqpError)
  | errorf (pre : String) (inner : GoError)
deriving DecidableEq, Repr

/-- The text of `err.Error()`. The text of an error of the broker client is
produced by the client library; `amqpText` is that rendering. `fmt.Errorf` puts
its own text in front of the text of the error it wraps. -/
def GoError.Error (amqpText : AmqpError → String) : GoError → String
  | .amqp e => amqpText e
  | .errorf pre inner => pre ++ GoError.Error amqpText inner

/-- The error wrapped by `%w`, as `errors.Unwrap` gives it. -/
def GoError.Unwrap : GoError → Option GoError
  | .amqp _ => none
  | .errorf _ inner => some inner

/-- An `amqp.Publishing`: the message handed to `Publish`. -/
structure Publishing where
  contentType : String
  deliveryMode : Nat
  body : Bytes
deriving DecidableEq, Repr

/-- An `amqp.Delivery`: a raw delivery of the broker. -/
structure Delivery where
  deliveryTag : Nat
  body : Bytes
deriving DecidableEq, Repr

/-- An `amqp.Queue`: the answer to a queue declaration. -/
structure Queue where
  Name : String
  Messages : Nat
  Consumers : Nat
deriving DecidableEq, Repr

/-- A request sent to the broker through a channel, with the arguments of the
client library's method in their order. -/
inductive Request where
  | exchangeDeclare (name kind : String) (durable autoDelete internal noWait : Bool)
      (args : Table)
  | publish (exchange key : String) (mandatory immediate : Bool) (msg : Publishing)
  | queueDeclare (name : String) (durable autoDelete exclusive noWait : Bool) (args : Table)
  | queueBind (name key exchange : String) (noWait : Bool) (args : Table)
  | consume (queue consumer : String) (autoAck exclusive noLocal noWait : Bool) (args : Table)
deriving DecidableEq, Repr

/-- The behaviour of the broker: its answer to a request, given the requests
that were sent on the channel before it. -/
structure Broker where
  exchangeDeclare : List Request → Request → Option AmqpError
  publish : List Request → Request → Option AmqpError
  queueDeclare : List Request → Request → Except AmqpError Queue
  consume : List Request → Request → Except AmqpError (List Delivery)

/-- An `*amqp.Channel`: the broker behind it and the requests sent so far,
oldest first. -/
structure Channel where
  broker : Broker
  sent : List Request

/-- The method `channel.ExchangeDeclare`: sends the request, returns the broker's error. -/
def Channel.ExchangeDeclare (ch : Channel) (name kind : String)
    (durable autoDelete internal noWait : Bool) (args : Table) : Option GoError × Channel :=
  let rq := Request.exchangeDeclare name kind durable autoDelete internal noWait args
  ((ch.broker.exchangeDeclare ch.sent rq).map GoError.amqp, { ch with sent := ch.sent ++ [rq] })

/-- The method `channel.Publish`: sends the request, returns the broker's error. -/
def Channel.Publish (ch : Channel) (exchange key : String) (mandatory immediate : Bool)
    (msg : Publishing) : Option GoError × Channel :=
  let rq := Request.publish exchange key mandatory immediate msg
  ((ch.broker.publish ch.sent rq).map GoError.amqp, { ch with sent := ch.sent ++ [rq] })

/-- The method `channel.QueueDeclare`: sends the request, returns the queue or the error. -/
def Channel.QueueDeclare (ch : Channel) (name : String)
    (durable autoDelete exclusive noWait : Bool) (args : Table) :
    Except GoError Queue × Channel :=
  let rq := Request.queueDeclare name durable autoDelete exclusive noWait args
  ((ch.broker.queueDeclare ch.sent rq).mapError GoError.amqp,
    { ch with sent := ch.sent ++ [rq] })

/-- The method `channel.Consume`: sends the request, returns the delivery stream
(the deliveries the broker sends before closing it) or the error. -/
def Channel.Consume (ch : Channel) (queue consumer : String)
    (autoAck exclusive noLocal noWait : Bool) (args : Table) :
    Except GoError (List Delivery) × Channel :=
  let rq := Request.consume queue consumer autoAck exclusive noLocal noWait args
  ((ch.broker.consume ch.sent rq).mapError GoError.amqp,
    { ch with sent := ch.sent ++ [rq] })

/-! ## The exchange declarator and the publisher -/

/-- The function `DeclareExchange` of `client.go`. -/
def DeclareExchange (_ctx : Context) (channel : Channel) (exchangeName : String) :
    Option GoError × Channel :=
  channel.ExchangeDeclare
    exchangeName -- name
    "topic"      -- type
    true         -- durable
    false        -- auto-deleted
    false        -- internal
    false        -- no-wait
    none         -- arguments

/-- The struct `rabbitMqPublisher`. -/
structure rabbitMqPublisher where
  channel : Channel

/-- The method `Publish` of `rabbitMqPublisher`: the returned error (`none` is
`nil`) and the publisher with its channel after the call. -/
def rabbitMqPublisher.Publish (client : rabbitMqPublisher) (ctx : Context)
    (exchangeName topic : String) (msg : Publishing) : Option GoError × rabbitMqPublisher :=
  match DeclareExchange ctx client.channel exchangeName with
  | (some err, ch) => (some (GoError.errorf "error when declare exchange " err), ⟨ch⟩)
  | (none, ch) =>
    let (res, ch2) := ch.Publish exchangeName topic false false msg
    (res, ⟨ch2⟩)

/-! ## The subscriber and its relay goroutine -/

/-- What the relay goroutine of `Subscribe` does, step by step. -/
inductive Event (Message : Type) where
  /-- The `range` loop received a delivery from `msgs`. -/
  | recv (d : Delivery)
  /-- The decode error was logged with `Errorln`. -/
  | logError (err : String)
  /-- The send `stream <- &res` completed: the reader received the message. -/
  | send (m : Message)
  /-- The send `stream <- &res` never completes: the reader receives no more. -/
  | blocked (m : Message)
  /-- The `range` loop found `msgs` closed and drained. -/
  | msgsClosed
  /-- The call `close(stream)`. -/
  | close
deriving Repr

/-- The goroutine started by `Subscribe`, run over the deliveries `msgs` that the
broker sends before it closes the delivery stream, with a reader that performs
`reads` receives on the unbuffered output stream. `unmarshal` is `json.Unmarshal`
into a `data.HosepipeMessage`. -/
def relay {Message : Type} (unmarshal : Bytes → Except String Message) :
    List Delivery → Nat → List (Event Message)
  | [], _ => [Event.msgsClosed, Event.close]
  | msg :: msgs, reads =>
    Event.recv msg ::
      match unmarshal msg.body with
      | .error err => Event.logError err :: relay unmarshal msgs reads
      | .ok res =>
        match reads with
        | 0 => [Event.blocked res]
        | reads + 1 => Event.send res :: relay unmarshal msgs reads

/-- How a call of `Subscribe` ends: `log.Fatalln` logs the text and the error and
exits the process, or the output stream is returned and the relay goroutine runs
(its events are the run of the stream). -/
inductive Outcome (Message : Type) where
  | exit (logged : String) (err : GoError)
  | stream (events : List (Event Message))
deriving Repr

/-- The struct `rabbitMqSubscriber`. -/
structure rabbitMqSubscriber where
  channel : Channel

set_option linter.unusedVariables false in
/-- The method `Subscribe` of `rabbitMqSubscriber`, with the decoder and the
reader of the returned stream as parameters. -/
def rabbitMqSubscriber.Subscribe {Message : Type} (client : rabbitMqSubscriber)
    (unmarshal : Bytes → Except String Message) (reads : Nat)
    (ctx : Context) (exchangeName queue topic : String) :
    Outcome Message × rabbitMqSubscriber :=
  match client.channel.QueueDeclare
      queue -- name
      true  -- durable
      false -- delete when unused
      false -- exclusive
      false -- no-wait
      none  -- arguments
  with
  | (.error err, ch) => (Outcome.exit "error when declaring queue" err, ⟨ch⟩)
  | (.ok q, ch) =>
    match ch.Consume
        q.Name     -- queue
        "hosepipe" -- consumer
        true       -- auto-ack
        false      -- exclusive
        false      -- no-local
        false      -- no-wait
        none       -- args
    with
    | (.error err, ch2) => (Outcome.exit "error when consuming queue" err, ⟨ch2⟩)
    | (.ok msgs, ch2) => (Outcome.stream (relay unmarshal msgs reads), ⟨ch2⟩)

/-! ## Reading a run of the relay -/

/-- A delivery's decoded message, when its body decodes. -/
def decode {Message : Type} (unmarshal : Bytes → Except String Message) (d : Delivery) :
    Option Message :=
  (unmarshal d.body).toOption

/-- The messages written to the output stream (received by its reader), in order. -/
def forwarded {Message : Type} : List (Event Message) → List Message
  | [] => []
  | Event.send m :: es => m :: forwarded es
  | _ :: es => forwarded es

/-- The deliveries the relay took from the delivery stream, in order. -/
def received {Message : Type} : List (Event Message) → List Delivery
  | [] => []
  | Event.recv d :: es => d :: received es
  | _ :: es => received es

/-- How many times the output stream is closed. -/
def closes {Message : Type} : List (Event Message) → Nat
  | [] => 0
  | Event.close :: es => closes es + 1
  | _ :: es => closes es

/-- Whether `Subscribe` returned its stream. -/
def Outcome.returned {Message : Type} : Outcome Message → Bool
  | .exit _ _ => false
  | .stream _ => true

/-- The messages a call of `Subscribe` forwards on the stream it returns. -/
def Outcome.forwarded {Message : Type} : Outcome Message → List Message
  | .exit _ _ => []
  | .stream events => rabbitmq.forwarded events

/-! ## Interfaces and method sets -/

/-- Direction of a channel type. -/
inductive ChanDir where
  | both
  | recvOnly
  | sendOnly
deriving DecidableEq, Repr

/-- The Go types that occur in the signatures of the subscriber. -/
inductive GoType where
  | context
  | string
  | named (pkg name : String)
  | pointer (elem : GoType)
  | chan (dir : ChanDir) (elem : GoType)
deriving DecidableEq, Repr

/-- A method: its name, parameter types and result types. -/
structure Method where
  name : String
  params : List GoType
  results : List GoType
deriving DecidableEq, Repr

/-- The interface `RabbitMqSubscriber` as declared. -/
def RabbitMqSubscriber : List Method :=
  [ { name := "Subscribe"
      params := [GoType.context, GoType.string, GoType.string, GoType.string]
      results := [GoType.chan ChanDir.both (GoType.named "data" "HosepipeMessage")] },
    { name := "CloseChannel", params := [], results := [] } ]

/-- The methods declared on `*rabbitMqSubscriber`. -/
def rabbitMqSubscriber.methodSet : List Method :=
  [ { name := "Subscribe"
      params := [GoType.context, GoType.string, GoType.string, GoType.string]
      results :=
        [GoType.chan ChanDir.recvOnly
          (GoType.pointer (GoType.named "data" "HosepipeMessage"))] } ]

/-- Go's rule: a type implements an interface when its method set has every
method of the interface with the same signature. -/
def implements (methodSet iface : List Method) : Bool :=
  iface.all fun m => methodSet.contains m

/-- The method of the given name in a method set. -/
def findMethod (methodSet : List Method) (name : String) : Option Method :=
  methodSet.find? fun m => m.name == name

/-! ## Sample brokers, decoder and values -/

/-- JSON white space: space, tab, line feed, carriage return. -/
def isSpace (b : Nat) : Bool :=
  b == 32 || b == 9 || b == 10 || b == 13

/-- A body without the white space before and after it. -/
def trimSpace (body : Bytes) : Bytes :=
  ((body.dropWhile isSpace).reverse.dropWhile isSpace).reverse

/-- A decoder for the concrete runs below. It accepts the bodies that hold the
empty object or `null`, with white space around them and inside the braces:
`json.Unmarshal` accepts these for every struct type and leaves the zero
message, written here as `{}`. Every other body is reported as an error, with
one text for all of them; the concrete runs use bodies that are not JSON for
those (`hi`), and no body with members. -/
def sampleUnmarshal (body : Bytes) : Except String Bytes :=
  match trimSpace body with
  | [110, 117, 108, 108] => .ok [123, 125]
  | 123 :: rest =>
    if rest.dropWhile isSpace = [125] then .ok [123, 125]
    else .error "body is not the empty object or null"
  | _ => .error "body is not the empty object or null"

/-- The deliveries of a concrete run, with the bodies `{}`, `hi` and `{ }`: a
good body, a malformed one, a good one. -/
def sampleDeliveries : List Delivery :=
  [⟨1, [123, 125]⟩, ⟨2, [104, 105]⟩, ⟨3, [123, 32, 125]⟩]

/-- A broker that accepts every request and delivers `sampleDeliveries`. -/
def okBroker : Broker where
  exchangeDeclare := fun _ _ => none
  publish := fun _ _ => none
  queueDeclare := fun _ rq =>
    match rq with
    | .queueDeclare name _ _ _ _ _ => .ok ⟨name, 0, 0⟩
    | _ => .error ⟨503, "COMMAND_INVALID"⟩
  consume := fun _ _ => .ok sampleDeliveries

/-- A broker that rejects exchange declarations. -/
def declareFailingBroker : Broker :=
  { okBroker with
    exchangeDeclare := fun _ _ => some ⟨406, "PRECONDITION_FAILED"⟩ }

/-- A broker that accepts exchange declarations and rejects publish calls. -/
def publishFailingBroker : Broker :=
  { okBroker with
    publish := fun _ _ => some ⟨504, "channel/connection is not open"⟩ }

/-- A broker that rejects queue declarations. -/
def queueFailingBroker : Broker :=
  { okBroker with
    queueDeclare := fun _ _ => .error ⟨405, "RESOURCE_LOCKED"⟩ }

/-- A broker that accepts queue declarations and rejects consume requests. -/
def consumeFailingBroker : Broker :=
  { okBroker with
    consume := fun _ _ => .error ⟨403, "ACCESS_REFUSED"⟩ }

/-- A context for concrete runs. -/
def sampleCtx : Context := ⟨false⟩

/-- A message for concrete runs. -/
def sampleMsg : Publishing := ⟨"application/json", 2, [123, 125]⟩

/-! ## Lemmas on the relay -/

section RelayLemmas

variable {Message : Type} (unmarshal : Bytes → Except String Message)

theorem relay_nil (reads : Nat) :
    relay unmarshal [] reads = [Event.msgsClosed, Event.close] := by
  simp [relay]

theorem relay_cons_error (d : Delivery) (ds : List Delivery) (reads : Nat) (err : String)
    (h : unmarshal d.body = .error err) :
    relay unmarshal (d :: ds) reads
      = Event.recv d :: Event.logError err :: relay unmarshal ds reads := by
  simp [relay, h]

theorem relay_cons_blocked (d : Delivery) (ds : List Delivery) (m : Message)
    (h : unmarshal d.body = .ok m) :
    relay unmarshal (d :: ds) 0 = [Event.recv d, Event.blocked m] := by
  simp [relay, h]

theorem relay_cons_send (d : Delivery) (ds : List Delivery) (reads : Nat) (m : Message)
    (h : unmarshal d.body = .ok m) :
    relay unmarshal (d :: ds) (reads + 1)
      = Event.recv d :: Event.send m :: relay unmarshal ds reads := by
  simp [relay, h]

theorem decode_error (d : Delivery) (err : String) (h : unmarshal d.body = .error err) :
    decode unmarshal d = none := by
  simp [decode, h, Except.toOption]

theorem decode_ok (d : Delivery) (m : Message) (h : unmarshal d.body = .ok m) :
    decode unmarshal d = some m := by
  simp [decode, h, Except.toOption]

/-- The messages written are the first `reads` successful decodes. -/
theorem forwarded_relay (ds : List Delivery) (reads : Nat) :
    forwarded (relay unmarshal ds reads) = (ds.filterMap (decode unmarshal)).take reads := by
  induction ds generalizing reads with
  | nil => simp [relay, forwarded]
  | cons d ds ih =>
    cases h : unmarshal d.body with
    | error err =>
      rw [relay_cons_error unmarshal d ds reads err h]
      simp [forwarded, ih, List.filterMap_cons, decode_error unmarshal d err h]
    | ok m =>
      cases reads with
      | zero =>
        rw [relay_cons_blocked unmarshal d ds m h]
        simp [forwarded]
      | succ reads =>
        rw [relay_cons_send unmarshal d ds reads m h]
        simp [forwarded, ih, List.filterMap_cons, decode_ok unmarshal d m h]

/-- A reader that takes every message lets the relay receive every delivery. -/
theorem received_relay (ds : List Delivery) (reads : Nat)
    (hreads : (ds.filterMap (decode unmarshal)).length ≤ reads) :
    received (relay unmarshal ds reads) = ds := by
  induction ds generalizing reads with
  | nil => simp [relay, received]
  | cons d ds ih =>
    cases h : unmarshal d.body with
    | error err =>
      rw [relay_cons_error unmarshal d ds reads err h]
      have hr : (ds.filterMap (decode unmarshal)).length ≤ reads := by
        simpa [List.filterMap_cons, decode_error unmarshal d err h] using hreads
      simp [received, ih reads hr]
    | ok m =>
      cases reads with
      | zero =>
        simp [List.filterMap_cons, decode_ok unmarshal d m h] at hreads
      | succ reads =>
        rw [relay_cons_send unmarshal d ds reads m h]
        have hr : (ds.filterMap (decode unmarshal)).length ≤ reads := by
          simpa [List.filterMap_cons, decode_ok unmarshal d m h] using hreads
        simp [received, ih reads hr]

/-- The output stream is closed once when the reader takes every message, and
never otherwise. -/
theorem closes_relay (ds : List Delivery) (reads : Nat) :
    closes (relay unmarshal ds reads)
      = if (ds.filterMap (decode unmarshal)).length ≤ reads then 1 else 0 := by
  induction ds generalizing reads with
  | nil => simp [relay, closes]
  | cons d ds ih =>
    cases h : unmarshal d.body with
    | error err =>
      rw [relay_cons_error unmarshal d ds reads err h]
      simp [closes, ih, List.filterMap_cons, decode_error unmarshal d err h]
    | ok m =>
      cases reads with
      | zero =>
        rw [relay_cons_blocked unmarshal d ds m h]
        simp [closes, List.filterMap_cons, decode_ok unmarshal d m h]
      | succ reads =>
        rw [relay_cons_send unmarshal d ds reads m h]
        simp [closes, ih, List.filterMap_cons, decode_ok unmarshal d m h]

/-- Whatever precedes a `close` in a run is the whole loop: every delivery was
received and handled, the delivery stream was found closed, and nothing follows. -/
theorem relay_close_split (ds : List Delivery) (reads : Nat)
    (pre post : List (Event Message))
    (h : relay unmarshal ds reads = pre ++ Event.close :: post) :
    post = [] ∧ received pre = ds ∧ closes pre = 0 ∧
      forwarded pre = ds.filterMap (decode unmarshal) ∧
      ∃ body, pre = body ++ [Event.msgsClosed] := by
  induction ds generalizing reads pre with
  | nil =>
    rw [relay_nil] at h
    match pre, h with
    | [], h => simp at h
    | [e], h =>
      simp at h
      obtain ⟨rfl, rfl⟩ := h
      exact ⟨rfl, rfl, rfl, rfl, [], rfl⟩
    | e :: e2 :: pre, h => simp at h
  | cons d ds ih =>
    cases hd : unmarshal d.body with
    | error err =>
      rw [relay_cons_error unmarshal d ds reads err hd] at h
      match pre, h with
      | [], h => simp at h
      | [e], h => simp at h
      | e :: e2 :: pre, h =>
        simp only [List.cons_append, List.cons.injEq] at h
        obtain ⟨rfl, rfl, h⟩ := h
        obtain ⟨h1, h2, h3, h4, body, h5⟩ := ih reads pre h
        refine ⟨h1, ?_, ?_, ?_, Event.recv d :: Event.logError err :: body, ?_⟩
        · simp [received, h2]
        · simp [closes, h3]
        · simp [forwarded, h4, List.filterMap_cons, decode_error unmarshal d err hd]
        · simp [h5]
    | ok m =>
      cases reads with
      | zero =>
        rw [relay_cons_blocked unmarshal d ds m hd] at h
        match pre, h with
        | [], h => simp at h
        | [e], h => simp at h
        | e :: e2 :: pre, h => simp at h
      | succ reads =>
        rw [relay_cons_send unmarshal d ds reads m hd] at h
        match pre, h with
        | [], h => simp at h
        | [e], h => simp at h
        | e :: e2 :: pre, h =>
          simp only [List.cons_append, List.cons.injEq] at h
          obtain ⟨rfl, rfl, h⟩ := h
          obtain ⟨h1, h2, h3, h4, body, h5⟩ := ih reads pre h
          refine ⟨h1, ?_, ?_, ?_, Event.recv d :: Event.send m :: body, ?_⟩
          · simp [received, h2]
          · simp [closes, h3]
          · simp [forwarded, h4, List.filterMap_cons, decode_ok unmarshal d m hd]
          · simp [h5]

end RelayLemmas

/-! ## The relay: what is forwarded, and when the output stream is closed -/

/-- C1, as stated, fails: the broker sends one well-formed delivery, the relay
receives it, and the reader of the output stream never receives; the send stays
blocked and no message is forwarded, though the delivery decodes. -/
theorem relay_blocked_forwards_nothing :
    received (relay sampleUnmarshal [⟨1, [123, 125]⟩] 0) = [⟨1, [123, 125]⟩] ∧
      forwarded (relay sampleUnmarshal [⟨1, [123, 125]⟩] 0) = [] ∧
      [(⟨1, [123, 125]⟩ : Delivery)].filterMap (decode sampleUnmarshal) = [[123, 125]] ∧
      forwarded (relay sampleUnmarshal [⟨1, [123, 125]⟩] 0)
        ≠ [(⟨1, [123, 125]⟩ : Delivery)].filterMap (decode sampleUnmarshal) := by
  decide

/-- C1, amended: for every sequence `ds` of deliveries, the messages forwarded
to the output stream are the successful decodes of the delivery bodies, in
delivery order, up to the number of messages the reader receives. When the
reader receives every message the relay sends, the relay handles every delivery
and the messages forwarded are exactly the successful decodes of `ds`: a
delivery that fails to decode contributes nothing and the deliveries after it
are still handled, so the forwarded messages of `xs ++ [bad] ++ ys` are those of
`xs` followed by those of `ys`. -/
theorem relay_forwards_successful_decodes {Message : Type}
    (unmarshal : Bytes → Except String Message) (ds : List Delivery) (reads : Nat) :
    forwarded (relay unmarshal ds reads) = (ds.filterMap (decode unmarshal)).take reads ∧
    ((ds.filterMap (decode unmarshal)).length ≤ reads →
      received (relay unmarshal ds reads) = ds ∧
      forwarded (relay unmarshal ds reads) = ds.filterMap (decode unmarshal) ∧
      ∀ xs bad ys, ds = xs ++ [bad] ++ ys → decode unmarshal bad = none →
        forwarded (relay unmarshal ds reads)
          = forwarded (relay unmarshal xs reads)
            ++ forwarded (relay unmarshal ys reads)) := by
  refine ⟨forwarded_relay unmarshal ds reads, fun hreads => ⟨?_, ?_, ?_⟩⟩
  · exact received_relay unmarshal ds reads hreads
  · rw [forwarded_relay, List.take_of_length_le hreads]
  · intro xs bad ys hds hbad
    subst hds
    have hlen : (xs.filterMap (decode unmarshal)).length
        + (ys.filterMap (decode unmarshal)).length ≤ reads := by
      simpa [List.filterMap_append, hbad] using hreads
    rw [forwarded_relay, forwarded_relay, forwarded_relay,
      List.take_of_length_le hreads, List.take_of_length_le (by omega),
      List.take_of_length_le (by omega)]
    simp [List.filterMap_append, hbad]

/-- C1, amended, at a concrete run: the bodies `{}`, `hi` and `{ }`, and a reader
that receives both messages; every delivery is received, and the two zero
messages are forwarded. -/
theorem relay_forwards_successful_decodes_witness :
    received (relay sampleUnmarshal sampleDeliveries 2) = sampleDeliveries ∧
      forwarded (relay sampleUnmarshal sampleDeliveries 2)
        = [[123, 125], [123, 125]] :=
  ⟨((relay_forwards_successful_decodes sampleUnmarshal sampleDeliveries 2).2
      (by decide)).1,
    ((relay_forwards_successful_decodes sampleUnmarshal sampleDeliveries 2).2
      (by decide)).2.1⟩

/-- C2, as stated, fails: the broker sends one well-formed delivery and closes
the delivery stream, the reader of the output stream never receives, and the
relay stays blocked in its send; the output stream is never closed. -/
theorem relay_blocked_never_closes :
    relay sampleUnmarshal [⟨1, [123, 125]⟩] 0
        = [Event.recv ⟨1, [123, 125]⟩, Event.blocked [123, 125]] ∧
      closes (relay sampleUnmarshal [⟨1, [123, 125]⟩] 0) ≠ 1 :=
  ⟨rfl, by decide⟩

/-- C2, amended: in every run of the relay over a delivery stream that the
broker closes after the deliveries `ds`, the output stream is closed at most
once; a close comes last in the run (nothing is written after it), after the
relay has received and handled every delivery and has found the delivery stream
closed; and the output stream is closed exactly once when the reader takes
every message the relay sends. -/
theorem relay_close_discipline {Message : Type}
    (unmarshal : Bytes → Except String Message) (ds : List Delivery) (reads : Nat) :
    closes (relay unmarshal ds reads) ≤ 1 ∧
    (∀ pre post, relay unmarshal ds reads = pre ++ Event.close :: post →
      post = [] ∧ received pre = ds ∧ closes pre = 0 ∧
        forwarded pre = ds.filterMap (decode unmarshal) ∧
        ∃ body, pre = body ++ [Event.msgsClosed]) ∧
    ((ds.filterMap (decode unmarshal)).length ≤ reads →
      closes (relay unmarshal ds reads) = 1) := by
  refine ⟨?_, ?_, ?_⟩
  · rw [closes_relay]
    split <;> omega
  · intro pre post h
    exact relay_close_split unmarshal ds reads pre post h
  · intro h
    rw [closes_relay, if_pos h]

/-- C2, amended, at a concrete run: three deliveries and a reader that takes
both messages; the output stream is closed once, last. -/
theorem relay_close_discipline_witness :
    closes (relay sampleUnmarshal sampleDeliveries 2) = 1 ∧
      (relay sampleUnmarshal sampleDeliveries 2).getLast? = some Event.close :=
  ⟨(relay_close_discipline sampleUnmarshal sampleDeliveries 2).2.2 (by decide), by rfl⟩

/-! ## The exchange declarator and the publisher -/

/-- A failed declaration is returned wrapped, and nothing is published. -/
theorem Publish_of_declare_error (client : rabbitMqPublisher) (ctx : Context)
    (exchangeName topic : String) (msg : Publishing) (e : AmqpError)
    (h : client.channel.broker.exchangeDeclare client.channel.sent
      (Request.exchangeDeclare exchangeName "topic" true false false false none) = some e) :
    (client.Publish ctx exchangeName topic msg).1
        = some (GoError.errorf "error when declare exchange " (GoError.amqp e)) ∧
      (client.Publish ctx exchangeName topic msg).2.channel.sent
        = client.channel.sent
          ++ [Request.exchangeDeclare exchangeName "topic" true false false false none] := by
  simp [rabbitMqPublisher.Publish, DeclareExchange, Channel.ExchangeDeclare, h]

/-- After a successful declaration the result of `Publish` is the result of the
publish call, as it is. -/
theorem Publish_of_declare_ok (client : rabbitMqPublisher) (ctx : Context)
    (exchangeName topic : String) (msg : Publishing)
    (h : client.channel.broker.exchangeDeclare client.channel.sent
      (Request.exchangeDeclare exchangeName "topic" true false false false none) = none) :
    (client.Publish ctx exchangeName topic msg).1
        = (client.channel.broker.publish
            (client.channel.sent
              ++ [Request.exchangeDeclare exchangeName "topic" true false false false none])
            (Request.publish exchangeName topic false false msg)).map GoError.amqp ∧
      (client.Publish ctx exchangeName topic msg).2.channel.sent
        = client.channel.sent
          ++ [Request.exchangeDeclare exchangeName "topic" true false false false none,
              Request.publish exchangeName topic false false msg] := by
  simp [rabbitMqPublisher.Publish, DeclareExchange, Channel.ExchangeDeclare, Channel.Publish, h]

/-- C8: `DeclareExchange` sends one exchange declaration, with the given name,
type "topic", durable, not auto-deleted, not internal, no-wait off and no
arguments, and returns the broker's answer to it; two calls with the same name
send the same declaration. -/
theorem DeclareExchange_sends_topic_declaration (ctx : Context) (channel : Channel)
    (exchangeName : String) :
    (DeclareExchange ctx channel exchangeName).2.sent
        = channel.sent
          ++ [Request.exchangeDeclare exchangeName "topic" true false false false none] ∧
      (DeclareExchange ctx channel exchangeName).2.broker = channel.broker ∧
      (DeclareExchange ctx channel exchangeName).1
        = (channel.broker.exchangeDeclare channel.sent
            (Request.exchangeDeclare exchangeName "topic" true false false false none)).map
          GoError.amqp ∧
      ∀ (ctx2 : Context) (channel2 : Channel),
        (DeclareExchange ctx2 channel2 exchangeName).2.sent.drop channel2.sent.length
          = (DeclareExchange ctx channel exchangeName).2.sent.drop channel.sent.length := by
  simp [DeclareExchange, Channel.ExchangeDeclare]

/-- C3: every call of `Publish` sends the declaration of `exchangeName` first,
before any publish call; when the declaration fails, `Publish` returns an error
and the declaration is the only request it sends. -/
theorem Publish_declares_exchange_first (client : rabbitMqPublisher) (ctx : Context)
    (exchangeName topic : String) (msg : Publishing) :
    (∃ rest, (client.Publish ctx exchangeName topic msg).2.channel.sent
        = client.channel.sent
          ++ Request.exchangeDeclare exchangeName "topic" true false false false none :: rest) ∧
    ∀ e, client.channel.broker.exchangeDeclare client.channel.sent
        (Request.exchangeDeclare exchangeName "topic" true false false false none) = some e →
      (client.Publish ctx exchangeName topic msg).1 ≠ none ∧
      (client.Publish ctx exchangeName topic msg).2.channel.sent
        = client.channel.sent
          ++ [Request.exchangeDeclare exchangeName "topic" true false false false none] := by
  refine ⟨?_, ?_⟩
  · cases h : client.channel.broker.exchangeDeclare client.channel.sent
        (Request.exchangeDeclare exchangeName "topic" true false false false none) with
    | none =>
      exact ⟨[Request.publish exchangeName topic false false msg],
        (Publish_of_declare_ok client ctx exchangeName topic msg h).2⟩
    | some e =>
      exact ⟨[], (Publish_of_declare_error client ctx exchangeName topic msg e h).2⟩
  · intro e h
    have := Publish_of_declare_error client ctx exchangeName topic msg e h
    exact ⟨by simp [this.1], this.2⟩

/-- C3, at a concrete call: the broker rejects the declaration. -/
theorem Publish_declares_exchange_first_witness :
    ((⟨⟨declareFailingBroker, []⟩⟩ : rabbitMqPublisher).Publish
        sampleCtx "events" "greetings.hello" sampleMsg).1 ≠ none ∧
      ((⟨⟨declareFailingBroker, []⟩⟩ : rabbitMqPublisher).Publish
        sampleCtx "events" "greetings.hello" sampleMsg).2.channel.sent
        = [Request.exchangeDeclare "events" "topic" true false false false none] :=
  (Publish_declares_exchange_first ⟨⟨declareFailingBroker, []⟩⟩
    sampleCtx "events" "greetings.hello" sampleMsg).2 ⟨406, "PRECONDITION_FAILED"⟩ rfl

/-- C5: when the declaration succeeds, `Publish` sends exactly one publish call
after it, to `exchangeName` with routing key `topic`, not mandatory, not
immediate, with the caller's message unchanged, and returns nil exactly when the
broker accepts that call. -/
theorem Publish_publishes_once (client : rabbitMqPublisher) (ctx : Context)
    (exchangeName topic : String) (msg : Publishing)
    (hdecl : client.channel.broker.exchangeDeclare client.channel.sent
      (Request.exchangeDeclare exchangeName "topic" true false false false none) = none) :
    (client.Publish ctx exchangeName topic msg).2.channel.sent
        = client.channel.sent
          ++ [Request.exchangeDeclare exchangeName "topic" true false false false none,
              Request.publish exchangeName topic false false msg] ∧
      ((client.Publish ctx exchangeName topic msg).1 = none ↔
        client.channel.broker.publish
          (client.channel.sent
            ++ [Request.exchangeDeclare exchangeName "topic" true false false false none])
          (Request.publish exchangeName topic false false msg) = none) := by
  have h := Publish_of_declare_ok client ctx exchangeName topic msg hdecl
  refine ⟨h.2, ?_⟩
  rw [h.1]
  simp

/-- C5, at a concrete call: the broker accepts both requests. -/
theorem Publish_publishes_once_witness :
    ((⟨⟨okBroker, []⟩⟩ : rabbitMqPublisher).Publish
        sampleCtx "events" "greetings.hello" sampleMsg).2.channel.sent
      = [Request.exchangeDeclare "events" "topic" true false false false none,
          Request.publish "events" "greetings.hello" false false sampleMsg] :=
  (Publish_publishes_once ⟨⟨okBroker, []⟩⟩
    sampleCtx "events" "greetings.hello" sampleMsg rfl).1

/-- C4, where the code departs from it: when the broker rejects the publish
call, `Publish` returns the broker's error as it is, wrapping nothing, so that
its text is the client library's text of that error with nothing in front,
while a rejected declaration is returned wrapped with its stage. -/
theorem Publish_returns_bare_publish_error :
    ((⟨⟨publishFailingBroker, []⟩⟩ : rabbitMqPublisher).Publish
        sampleCtx "events" "greetings.hello" sampleMsg).1
        = some (GoError.amqp ⟨504, "channel/connection is not open"⟩) ∧
      (((⟨⟨publishFailingBroker, []⟩⟩ : rabbitMqPublisher).Publish
        sampleCtx "events" "greetings.hello" sampleMsg).1.bind GoError.Unwrap) = none ∧
      (∀ amqpText : AmqpError → String,
        ((⟨⟨publishFailingBroker, []⟩⟩ : rabbitMqPublisher).Publish
        sampleCtx "events" "greetings.hello" sampleMsg).1.map (GoError.Error amqpText)
        = some (amqpText ⟨504, "channel/connection is not open"⟩)) ∧
      ((⟨⟨declareFailingBroker, []⟩⟩ : rabbitMqPublisher).Publish
        sampleCtx "events" "greetings.hello" sampleMsg).1
        = some (GoError.errorf "error when declare exchange "
            (GoError.amqp ⟨406, "PRECONDITION_FAILED"⟩)) :=
  ⟨by decide, by decide, fun _ => rfl, by decide⟩

/-! ## The subscriber -/

/-- A rejected queue declaration ends the process; the declaration is the only request. -/
theorem Subscribe_of_declare_error {Message : Type} (client : rabbitMqSubscriber)
    (unmarshal : Bytes → Except String Message) (reads : Nat) (ctx : Context)
    (exchangeName queue topic : String) (e : AmqpError)
    (h : client.channel.broker.queueDeclare client.channel.sent
      (Request.queueDeclare queue true false false false none) = .error e) :
    (client.Subscribe unmarshal reads ctx exchangeName queue topic).1
        = Outcome.exit "error when declaring queue" (GoError.amqp e) ∧
      (client.Subscribe unmarshal reads ctx exchangeName queue topic).2.channel.sent
        = client.channel.sent ++ [Request.queueDeclare queue true false false false none] := by
  simp [rabbitMqSubscriber.Subscribe, Channel.QueueDeclare, h, Except.mapError]

/-- A rejected consume request ends the process after the two requests. -/
theorem Subscribe_of_consume_error {Message : Type} (client : rabbitMqSubscriber)
    (unmarshal : Bytes → Except String Message) (reads : Nat) (ctx : Context)
    (exchangeName queue topic : String) (q : Queue) (e : AmqpError)
    (h : client.channel.broker.queueDeclare client.channel.sent
      (Request.queueDeclare queue true false false false none) = .ok q)
    (hc : client.channel.broker.consume
      (client.channel.sent ++ [Request.queueDeclare queue true false false false none])
      (Request.consume q.Name "hosepipe" true false false false none) = .error e) :
    (client.Subscribe unmarshal reads ctx exchangeName queue topic).1
        = Outcome.exit "error when consuming queue" (GoError.amqp e) ∧
      (client.Subscribe unmarshal reads ctx exchangeName queue topic).2.channel.sent
        = client.channel.sent
          ++ [Request.queueDeclare queue true false false false none,
              Request.consume q.Name "hosepipe" true false false false none] := by
  simp [rabbitMqSubscriber.Subscribe, Channel.QueueDeclare, Channel.Consume, h, hc,
    Except.mapError]

/-- When both requests are accepted the stream is returned and the relay runs
over the deliveries of the broker. -/
theorem Subscribe_of_ok {Message : Type} (client : rabbitMqSubscriber)
    (unmarshal : Bytes → Except String Message) (reads : Nat) (ctx : Context)
    (exchangeName queue topic : String) (q : Queue) (msgs : List Delivery)
    (h : client.channel.broker.queueDeclare client.channel.sent
      (Request.queueDeclare queue true false false false none) = .ok q)
    (hc : client.channel.broker.consume
      (client.channel.sent ++ [Request.queueDeclare queue true false false false none])
      (Request.consume q.Name "hosepipe" true false false false none) = .ok msgs) :
    (client.Subscribe unmarshal reads ctx exchangeName queue topic).1
        = Outcome.stream (relay unmarshal msgs reads) ∧
      (client.Subscribe unmarshal reads ctx exchangeName queue topic).2.channel.sent
        = client.channel.sent
          ++ [Request.queueDeclare queue true false false false none,
              Request.consume q.Name "hosepipe" true false false false none] := by
  simp [rabbitMqSubscriber.Subscribe, Channel.QueueDeclare, Channel.Consume, h, hc,
    Except.mapError]

/-- After an accepted queue declaration the requests are the declaration and one
consume request on the returned queue name, whatever the broker answers to it. -/
theorem Subscribe_sent_of_declare_ok {Message : Type} (client : rabbitMqSubscriber)
    (unmarshal : Bytes → Except String Message) (reads : Nat) (ctx : Context)
    (exchangeName queue topic : String) (q : Queue)
    (h : client.channel.broker.queueDeclare client.channel.sent
      (Request.queueDeclare queue true false false false none) = .ok q) :
    (client.Subscribe unmarshal reads ctx exchangeName queue topic).2.channel.sent
      = client.channel.sent
        ++ [Request.queueDeclare queue true false false false none,
            Request.consume q.Name "hosepipe" true false false false none] := by
  cases hc : client.channel.broker.consume
      (client.channel.sent ++ [Request.queueDeclare queue true false false false none])
      (Request.consume q.Name "hosepipe" true false false false none) with
  | error e =>
    exact (Subscribe_of_consume_error client unmarshal reads ctx exchangeName queue topic
      q e h hc).2
  | ok msgs =>
    exact (Subscribe_of_ok client unmarshal reads ctx exchangeName queue topic
      q msgs h hc).2

/-- C7: `Subscribe` has no error result. When the queue declaration fails the
process exits with the declaration as the only request sent: no consume request,
no relay, no stream. When the declaration succeeds and the consume request fails
the process exits without a relay or a stream. The stream is returned exactly
when both requests succeed. -/
theorem Subscribe_setup_failure_exits {Message : Type} (client : rabbitMqSubscriber)
    (unmarshal : Bytes → Except String Message) (reads : Nat) (ctx : Context)
    (exchangeName queue topic : String) :
    (∀ e, client.channel.broker.queueDeclare client.channel.sent
        (Request.queueDeclare queue true false false false none) = .error e →
      (client.Subscribe unmarshal reads ctx exchangeName queue topic).1
          = Outcome.exit "error when declaring queue" (GoError.amqp e) ∧
        (client.Subscribe unmarshal reads ctx exchangeName queue topic).2.channel.sent
          = client.channel.sent ++ [Request.queueDeclare queue true false false false none]) ∧
    (∀ q e, client.channel.broker.queueDeclare client.channel.sent
        (Request.queueDeclare queue true false false false none) = .ok q →
      client.channel.broker.consume
        (client.channel.sent ++ [Request.queueDeclare queue true false false false none])
        (Request.consume q.Name "hosepipe" true false false false none) = .error e →
      (client.Subscribe unmarshal reads ctx exchangeName queue topic).1
          = Outcome.exit "error when consuming queue" (GoError.amqp e)) ∧
    ((client.Subscribe unmarshal reads ctx exchangeName queue topic).1.returned = true ↔
      ∃ q msgs, client.channel.broker.queueDeclare client.channel.sent
          (Request.queueDeclare queue true false false false none) = .ok q ∧
        client.channel.broker.consume
          (client.channel.sent ++ [Request.queueDeclare queue true false false false none])
          (Request.consume q.Name "hosepipe" true false false false none) = .ok msgs) := by
  refine ⟨?_, ?_, ?_⟩
  · intro e h
    exact Subscribe_of_declare_error client unmarshal reads ctx exchangeName queue topic e h
  · intro q e h hc
    exact (Subscribe_of_consume_error client unmarshal reads ctx exchangeName queue topic
      q e h hc).1
  · cases h : client.channel.broker.queueDeclare client.channel.sent
        (Request.queueDeclare queue true false false false none) with
    | error e =>
      rw [(Subscribe_of_declare_error client unmarshal reads ctx exchangeName queue topic
        e h).1]
      simp [Outcome.returned]
    | ok q =>
      cases hc : client.channel.broker.consume
          (client.channel.sent ++ [Request.queueDeclare queue true false false false none])
          (Request.consume q.Name "hosepipe" true false false false none) with
      | error e =>
        rw [(Subscribe_of_consume_error client unmarshal reads ctx exchangeName queue topic
          q e h hc).1]
        simp [Outcome.returned, hc]
      | ok msgs =>
        rw [(Subscribe_of_ok client unmarshal reads ctx exchangeName queue topic
          q msgs h hc).1]
        simp [Outcome.returned, hc]

/-- C7, at concrete calls: a broker that rejects the queue declaration, and one
that rejects the consume request. -/
theorem Subscribe_setup_failure_exits_witness :
    ((⟨⟨queueFailingBroker, []⟩⟩ : rabbitMqSubscriber).Subscribe
        sampleUnmarshal 2 sampleCtx "events" "q1" "greetings.*").2.channel.sent
        = [Request.queueDeclare "q1" true false false false none] ∧
      ((⟨⟨consumeFailingBroker, []⟩⟩ : rabbitMqSubscriber).Subscribe
        sampleUnmarshal 2 sampleCtx "events" "q1" "greetings.*").1.returned = false :=
  ⟨((Subscribe_setup_failure_exits ⟨⟨queueFailingBroker, []⟩⟩
      sampleUnmarshal 2 sampleCtx "events" "q1" "greetings.*").1
      ⟨405, "RESOURCE_LOCKED"⟩ rfl).2,
    by
      rw [(Subscribe_setup_failure_exits ⟨⟨consumeFailingBroker, []⟩⟩
        sampleUnmarshal 2 sampleCtx "events" "q1" "greetings.*").2.1
        ⟨"q1", 0, 0⟩ ⟨403, "ACCESS_REFUSED"⟩ rfl rfl]
      rfl⟩

/-- C9: `Subscribe` first declares the queue with the given name, durable, not
auto-deleted, not exclusive, no-wait off and no arguments; when the declaration
succeeds it then sends one consume request on the queue name the declaration
returned, with consumer tag "hosepipe", auto-ack on, not exclusive, no-local off,
no-wait off and no arguments. -/
theorem Subscribe_declares_then_consumes {Message : Type} (client : rabbitMqSubscriber)
    (unmarshal : Bytes → Except String Message) (reads : Nat) (ctx : Context)
    (exchangeName queue topic : String) :
    (∃ rest, (client.Subscribe unmarshal reads ctx exchangeName queue topic).2.channel.sent
        = client.channel.sent
          ++ Request.queueDeclare queue true false false false none :: rest) ∧
    ∀ q, client.channel.broker.queueDeclare client.channel.sent
        (Request.queueDeclare queue true false false false none) = .ok q →
      (client.Subscribe unmarshal reads ctx exchangeName queue topic).2.channel.sent
        = client.channel.sent
          ++ [Request.queueDeclare queue true false false false none,
              Request.consume q.Name "hosepipe" true false false false none] := by
  refine ⟨?_, fun q h =>
    Subscribe_sent_of_declare_ok client unmarshal reads ctx exchangeName queue topic q h⟩
  cases h : client.channel.broker.queueDeclare client.channel.sent
      (Request.queueDeclare queue true false false false none) with
  | error e =>
    exact ⟨[], (Subscribe_of_declare_error client unmarshal reads ctx exchangeName queue
      topic e h).2⟩
  | ok q =>
    exact ⟨[Request.consume q.Name "hosepipe" true false false false none],
      Subscribe_sent_of_declare_ok client unmarshal reads ctx exchangeName queue topic q h⟩

/-- C9, at a concrete call on a broker that accepts both requests. -/
theorem Subscribe_declares_then_consumes_witness :
    ((⟨⟨okBroker, []⟩⟩ : rabbitMqSubscriber).Subscribe
        sampleUnmarshal 2 sampleCtx "events" "q1" "greetings.*").2.channel.sent
      = [Request.queueDeclare "q1" true false false false none,
          Request.consume "q1" "hosepipe" true false false false none] :=
  (Subscribe_declares_then_consumes ⟨⟨okBroker, []⟩⟩
    sampleUnmarshal 2 sampleCtx "events" "q1" "greetings.*").2 ⟨"q1", 0, 0⟩ rfl

/-- C10: `Subscribe` does not depend on its exchange name and topic: with the
same queue name, broker, decoder and reader, two calls with any two pairs of
exchange name and topic end the same way, send the same requests and forward
the same messages. The requests are the queue declaration alone or the queue
declaration followed by one consume request (both when the stream is returned):
no queue binding and no exchange declaration. -/
theorem Subscribe_ignores_exchange_and_topic {Message : Type} (client : rabbitMqSubscriber)
    (unmarshal : Bytes → Except String Message) (reads : Nat) (ctx : Context)
    (queue exchangeName1 topic1 exchangeName2 topic2 : String) :
    client.Subscribe unmarshal reads ctx exchangeName1 queue topic1
        = client.Subscribe unmarshal reads ctx exchangeName2 queue topic2 ∧
      (client.Subscribe unmarshal reads ctx exchangeName1 queue topic1).2.channel.sent
        = (client.Subscribe unmarshal reads ctx exchangeName2 queue topic2).2.channel.sent ∧
      (client.Subscribe unmarshal reads ctx exchangeName1 queue topic1).1.forwarded
        = (client.Subscribe unmarshal reads ctx exchangeName2 queue topic2).1.forwarded ∧
      (((client.Subscribe unmarshal reads ctx exchangeName1 queue topic1).1.returned = false ∧
          (client.Subscribe unmarshal reads ctx exchangeName1 queue topic1).2.channel.sent
            = client.channel.sent ++ [Request.queueDeclare queue true false false false none]) ∨
        ∃ q : Queue, (client.Subscribe unmarshal reads ctx exchangeName1 queue topic1).2.channel.sent
          = client.channel.sent
            ++ [Request.queueDeclare queue true false false false none,
                Request.consume q.Name "hosepipe" true false false false none]) := by
  refine ⟨rfl, rfl, rfl, ?_⟩
  cases h : client.channel.broker.queueDeclare client.channel.sent
      (Request.queueDeclare queue true false false false none) with
  | error e =>
    have := Subscribe_of_declare_error client unmarshal reads ctx exchangeName1 queue
      topic1 e h
    exact Or.inl ⟨by rw [this.1]; rfl, this.2⟩
  | ok q =>
    exact Or.inr ⟨q, Subscribe_sent_of_declare_ok client unmarshal reads ctx
      exchangeName1 queue topic1 q h⟩

/-- C6, where the code departs from it: `*rabbitMqSubscriber` has no
`CloseChannel` method, and its `Subscribe` returns a receive-only stream of
pointers where the interface `RabbitMqSubscriber` asks for a stream of values;
the type does not implement the interface. -/
theorem rabbitMqSubscriber_lacks_CloseChannel :
    findMethod rabbitMqSubscriber.methodSet "CloseChannel" = none ∧
      findMethod RabbitMqSubscriber "CloseChannel"
        = some { name := "CloseChannel", params := [], results := [] } ∧
      findMethod rabbitMqSubscriber.methodSet "Subscribe"
        ≠ findMethod RabbitMqSubscriber "Subscribe" ∧
      implements rabbitMqSubscriber.methodSet RabbitMqSubscriber = false := by
  decide

end rabbitmq
